import Mathlib

/-!
Verification of the `VolatilitySpreadMaker` strategy (src/strategy6.py).

The script computes bid/ask quotes around a reference price with a
volatility-scaled spread clamped between configured bounds, and submits or
cancels limit orders on a fixed refresh cadence.  All numeric values
(prices, spreads, timestamps) are modelled exactly over `ℚ`; the host
framework's collaborators (price source, candle feed / ATR indicator,
budget checker) are modelled as inputs to the embedded functions.
-/

/-- The host framework's `TradeType` enum (`BUY`, `SELL`, `RANGE`). -/
inductive TradeType where
  | BUY
  | SELL
  | RANGE
deriving DecidableEq, Repr

/-- The host framework's `OrderType` enum (the script only uses `LIMIT`). -/
inductive OrderType where
  | LIMIT
  | MARKET
deriving DecidableEq, Repr

/-- The host framework's `OrderCandidate`, with the fields the script sets. -/
structure OrderCandidate where
  trading_pair : String
  is_maker : Bool
  order_type : OrderType
  order_side : TradeType
  amount : ℚ
  price : ℚ
deriving DecidableEq, Repr

/-- The class-level configuration attributes of `VolatilitySpreadMaker`. -/
structure StrategyConfig where
  trading_pair : String
  order_amount : ℚ
  order_refresh_time : ℚ
  atr_window : ℕ
  atr_multiplier : ℚ
  min_spread : ℚ
  max_spread : ℚ
deriving DecidableEq, Repr

/-- The concrete configuration values set at class level in the script:
`order_amount = 0.01`, `order_refresh_time = 15`, `atr_window = 30`,
`atr_multiplier = 1.2`, `min_spread = 0.0003`, `max_spread = 0.002`. -/
def defaultConfig : StrategyConfig :=
  { trading_pair := "ETH-USDT"
    order_amount := 1/100
    order_refresh_time := 15
    atr_window := 30
    atr_multiplier := 6/5
    min_spread := 3/10000
    max_spread := 1/500 }

/-- Lines 74-75 of `create_proposal`: `if atr is None or atr <= 0: atr =
ref_price * self.min_spread`.  The ATR value comes from the external candle
feed, so it is an input here; `none` models an absent value. -/
def fallbackAtr (cfg : StrategyConfig) (ref_price : ℚ) (atr : Option ℚ) : ℚ :=
  match atr with
  | none => ref_price * cfg.min_spread
  | some a => if a ≤ 0 then ref_price * cfg.min_spread else a

/-- The unclamped spread of line 78: `atr * self.atr_multiplier / ref_price`
(after the fallback substitution). -/
def raw_spread (cfg : StrategyConfig) (ref_price : ℚ) (atr : Option ℚ) : ℚ :=
  fallbackAtr cfg ref_price atr * cfg.atr_multiplier / ref_price

/-- Line 78: `dynamic_spread = min(max(raw, self.min_spread), self.max_spread)`. -/
def dynamic_spread (cfg : StrategyConfig) (ref_price : ℚ) (atr : Option ℚ) : ℚ :=
  min (max (raw_spread cfg ref_price atr) cfg.min_spread) cfg.max_spread

/-- Line 80: `bid_price = ref_price * Decimal(1 - dynamic_spread)`. -/
def bid_price (cfg : StrategyConfig) (ref_price : ℚ) (atr : Option ℚ) : ℚ :=
  ref_price * (1 - dynamic_spread cfg ref_price atr)

/-- Line 81: `ask_price = ref_price * Decimal(1 + dynamic_spread)`. -/
def ask_price (cfg : StrategyConfig) (ref_price : ℚ) (atr : Option ℚ) : ℚ :=
  ref_price * (1 + dynamic_spread cfg ref_price atr)

/-- `create_proposal` (lines 68-99).  The reference price and ATR value are
supplied by external collaborators and appear as inputs.  A zero reference
price makes the division on line 78 raise (`Decimal` division by zero),
modelled as `none`; otherwise the buy and sell `OrderCandidate`s of lines
83-99 are returned.  The script performs no other validation of
`ref_price`. -/
def create_proposal (cfg : StrategyConfig) (ref_price : ℚ) (atr : Option ℚ) :
    Option (List OrderCandidate) :=
  if ref_price = 0 then none
  else some
    [{ trading_pair := cfg.trading_pair
       is_maker := true
       order_type := OrderType.LIMIT
       order_side := TradeType.BUY
       amount := cfg.order_amount
       price := bid_price cfg ref_price atr },
     { trading_pair := cfg.trading_pair
       is_maker := true
       order_type := OrderType.LIMIT
       order_side := TradeType.SELL
       amount := cfg.order_amount
       price := ask_price cfg ref_price atr }]

/-- The side-effecting calls the strategy makes into the host framework:
`cancel_all_orders` (lines 114-116) and the `self.buy` / `self.sell` calls
of `place_order` (lines 108-112). -/
inductive HostAction where
  | cancelAll
  | buy (connector_name trading_pair : String) (amount : ℚ)
      (order_type : OrderType) (price : ℚ)
  | sell (connector_name trading_pair : String) (amount : ℚ)
      (order_type : OrderType) (price : ℚ)
deriving DecidableEq, Repr

/-- `place_order` (lines 108-112): an `if / elif` on the order side with no
`else` branch, so a side that is neither `SELL` nor `BUY` submits nothing. -/
def place_order (connector_name : String) (order : OrderCandidate) : List HostAction :=
  if order.order_side = TradeType.SELL then
    [HostAction.sell connector_name order.trading_pair order.amount
      order.order_type order.price]
  else if order.order_side = TradeType.BUY then
    [HostAction.buy connector_name order.trading_pair order.amount
      order.order_type order.price]
  else []

/-- `place_orders` (lines 104-106): `place_order` on each proposed order. -/
def place_orders (connector_name : String) (proposal : List OrderCandidate) :
    List HostAction :=
  (proposal.map (place_order connector_name)).flatten

/-- The strategy's only mutable field, `create_timestamp` (line 24). -/
structure StrategyState where
  create_timestamp : ℚ
deriving DecidableEq, Repr

/-- `on_tick` (lines 52-61).  Inputs from the host per tick: the candle
feed's `ready` flag, `current_timestamp`, the connector's reference price
and the ATR value, and the external budget checker `adjust` (line 102,
`adjust_proposal_to_budget`).  Returns the new state and the list of host
calls made.  When `create_proposal` fails (zero reference price) the
exception propagates after `cancel_all_orders` has already run, so neither
placement nor the `create_timestamp` update happens. -/
def on_tick (cfg : StrategyConfig) (exchange : String)
    (adjust : List OrderCandidate → List OrderCandidate)
    (ready : Bool) (current_timestamp ref_price : ℚ) (atr : Option ℚ)
    (st : StrategyState) : StrategyState × List HostAction :=
  if st.create_timestamp ≤ current_timestamp then
    if ready then
      match create_proposal cfg ref_price atr with
      | none => (st, [HostAction.cancelAll])
      | some proposal =>
          ({ create_timestamp := current_timestamp + cfg.order_refresh_time },
           HostAction.cancelAll :: place_orders exchange (adjust proposal))
    else (st, [])
  else (st, [])

/-- C1: for every reference price > 0 and volatility ≥ 0, when
`min_spread ≤ max_spread` the spread computed on line 78 lies in the closed
interval `[min_spread, max_spread]`. -/
theorem dynamic_spread_within_bounds (cfg : StrategyConfig) (ref_price v : ℚ)
    (hbounds : cfg.min_spread ≤ cfg.max_spread) (href : 0 < ref_price)
    (hv : 0 ≤ v) :
    cfg.min_spread ≤ dynamic_spread cfg ref_price (some v) ∧
      dynamic_spread cfg ref_price (some v) ≤ cfg.max_spread := by
  unfold dynamic_spread
  exact ⟨le_min (le_max_right _ _) hbounds, min_le_right _ _⟩

/-- Witness for C1 at the script's own configuration, reference price 2000
and ATR 0.8. -/
theorem dynamic_spread_within_bounds_witness :
    defaultConfig.min_spread ≤ dynamic_spread defaultConfig 2000 (some (4/5)) ∧
      dynamic_spread defaultConfig 2000 (some (4/5)) ≤ defaultConfig.max_spread :=
  dynamic_spread_within_bounds defaultConfig 2000 (4/5)
    (by norm_num [defaultConfig]) (by norm_num) (by norm_num)

/-- C2 counterexample: with the script's own configuration and reference
price 2000, an absent ATR does NOT yield a spread equal to `min_spread`:
the fallback ATR `2000 * 0.0003 = 0.6` is multiplied by `atr_multiplier =
1.2` before division, giving `0.00036 ≠ 0.0003`. -/
theorem fallback_spread_ne_min_spread :
    dynamic_spread defaultConfig 2000 none = 9/25000 ∧
      (9/25000 : ℚ) ≠ defaultConfig.min_spread := by
  constructor
  · norm_num [dynamic_spread, raw_spread, fallbackAtr, defaultConfig]
  · norm_num [defaultConfig]

/-- C2 (amended): if the ATR input is absent or ≤ 0, `create_proposal`
substitutes the fallback volatility `ref_price * min_spread`, and the
resulting spread is the clamp of `min_spread * atr_multiplier` (not
`min_spread` itself, unless the multiplier is 1). -/
theorem fallback_spread_eq_clamped_scaled_min (cfg : StrategyConfig)
    (ref_price : ℚ) (atr : Option ℚ) (href : ref_price ≠ 0)
    (hatr : atr = none ∨ ∃ a, atr = some a ∧ a ≤ 0) :
    fallbackAtr cfg ref_price atr = ref_price * cfg.min_spread ∧
      dynamic_spread cfg ref_price atr =
        min (max (cfg.min_spread * cfg.atr_multiplier) cfg.min_spread)
          cfg.max_spread := by
  have hf : fallbackAtr cfg ref_price atr = ref_price * cfg.min_spread := by
    rcases hatr with h | ⟨a, ha, hle⟩ <;> simp [fallbackAtr, *]
  refine ⟨hf, ?_⟩
  unfold dynamic_spread raw_spread
  rw [hf]
  congr 2
  field_simp
  ring

/-- Witness for C2 (amended) at the script's configuration, reference price
2000 and absent ATR. -/
theorem fallback_spread_eq_clamped_scaled_min_witness :
    fallbackAtr defaultConfig 2000 none = 2000 * defaultConfig.min_spread ∧
      dynamic_spread defaultConfig 2000 none =
        min (max (defaultConfig.min_spread * defaultConfig.atr_multiplier)
          defaultConfig.min_spread) defaultConfig.max_spread :=
  fallback_spread_eq_clamped_scaled_min defaultConfig 2000 none
    (by norm_num) (Or.inl rfl)

/-- A configuration with `max_spread` misconfigured below `min_spread`,
used to test the clamp order of line 78. -/
def misconfiguredConfig : StrategyConfig :=
  { defaultConfig with min_spread := 1/2, max_spread := 1/10 }

/-- C3 counterexample: with `min_spread = 0.5 > max_spread = 0.1`, reference
price 2000 and ATR 0.8, the computed spread is `0.1 < 0.5`: `min_spread` is
NOT an absolute floor — the outer `min` makes `max_spread` win. -/
theorem min_spread_not_absolute_floor :
    dynamic_spread misconfiguredConfig 2000 (some (4/5)) = 1/10 ∧
      (1/10 : ℚ) < misconfiguredConfig.min_spread := by
  constructor
  · norm_num [dynamic_spread, raw_spread, fallbackAtr, misconfiguredConfig,
      defaultConfig]
  · norm_num [misconfiguredConfig, defaultConfig]

/-- C3 (amended): the clamp of line 78 is `min(max(raw, min_spread),
max_spread)`, so `max_spread` is the absolute cap: whenever `max_spread <
min_spread` the computed spread equals `max_spread` and falls strictly
below `min_spread`, for every reference price and volatility. -/
theorem max_spread_absolute_cap (cfg : StrategyConfig) (ref_price : ℚ)
    (atr : Option ℚ) (hmis : cfg.max_spread < cfg.min_spread) :
    dynamic_spread cfg ref_price atr = cfg.max_spread ∧
      dynamic_spread cfg ref_price atr < cfg.min_spread := by
  have h : dynamic_spread cfg ref_price atr = cfg.max_spread := by
    unfold dynamic_spread
    exact min_eq_right (le_of_lt (lt_of_lt_of_le hmis (le_max_right _ _)))
  exact ⟨h, h ▸ hmis⟩

/-- Witness for C3 (amended) at the misconfigured bounds. -/
theorem max_spread_absolute_cap_witness :
    dynamic_spread misconfiguredConfig 2000 (some (4/5)) =
        misconfiguredConfig.max_spread ∧
      dynamic_spread misconfiguredConfig 2000 (some (4/5)) <
        misconfiguredConfig.min_spread :=
  max_spread_absolute_cap misconfiguredConfig 2000 (some (4/5))
    (by norm_num [misconfiguredConfig, defaultConfig])

/-- C4 counterexample: at the negative reference price -2000 the quote
computation proceeds and produces quotes — no error is signalled and no
check rejects a non-positive price. -/
theorem negative_price_produces_quotes :
    (create_proposal defaultConfig (-2000) (some (4/5))).isSome = true := by
  norm_num [create_proposal]

/-- C4 (amended): `create_proposal` performs no reference-price validation.
Only a zero reference price halts the computation (the `Decimal` division
on line 78 raises); for every nonzero reference price, negative included,
quotes are produced. -/
theorem create_proposal_no_price_check (cfg : StrategyConfig)
    (atr : Option ℚ) :
    create_proposal cfg 0 atr = none ∧
      ∀ ref_price : ℚ, ref_price ≠ 0 →
        (create_proposal cfg ref_price atr).isSome = true := by
  constructor
  · simp [create_proposal]
  · intro ref_price href
    simp [create_proposal, href]

/-- Witness for C4 (amended) at the script's configuration, ATR 0.8 and
reference price -1. -/
theorem create_proposal_no_price_check_witness :
    create_proposal defaultConfig 0 (some (4/5)) = none ∧
      (create_proposal defaultConfig (-1) (some (4/5))).isSome = true :=
  ⟨(create_proposal_no_price_check defaultConfig (some (4/5))).1,
    (create_proposal_no_price_check defaultConfig (some (4/5))).2 (-1)
      (by norm_num)⟩

/-- C5: for every reference price > 0, whenever the computed spread is
positive the bid of line 80 is strictly below the reference price and the
ask of line 81 strictly above it. -/
theorem bid_ask_bracket_reference (cfg : StrategyConfig) (ref_price : ℚ)
    (atr : Option ℚ) (href : 0 < ref_price)
    (hs : 0 < dynamic_spread cfg ref_price atr) :
    bid_price cfg ref_price atr < ref_price ∧
      ref_price < ask_price cfg ref_price atr := by
  unfold bid_price ask_price
  constructor
  · nlinarith [mul_pos href hs]
  · nlinarith [mul_pos href hs]

/-- Witness for C5 at the script's configuration, reference price 2000 and
ATR 0.8. -/
theorem bid_ask_bracket_reference_witness :
    bid_price defaultConfig 2000 (some (4/5)) < 2000 ∧
      (2000 : ℚ) < ask_price defaultConfig 2000 (some (4/5)) :=
  bid_ask_bracket_reference defaultConfig 2000 (some (4/5)) (by norm_num)
    (by norm_num [dynamic_spread, raw_spread, fallbackAtr, defaultConfig])

/-- C6: for every reference price and computed spread, the ask of line 81
minus the bid of line 80 equals `2 * ref_price * spread`: the quotes are
symmetric around the reference price. -/
theorem ask_bid_symmetric (cfg : StrategyConfig) (ref_price : ℚ)
    (atr : Option ℚ) :
    ask_price cfg ref_price atr - bid_price cfg ref_price atr =
      2 * ref_price * dynamic_spread cfg ref_price atr := by
  unfold ask_price bid_price
  ring

/-- C7: the spec's worked example at the script's configuration
(`atr_multiplier = 1.2`, `min_spread = 0.0003`, `max_spread = 0.002`):
reference price 2000 and ATR 0.8 give raw spread 0.00048, clamped spread
0.00048, bid 1999.04 and ask 2000.96 exactly. -/
theorem worked_example_values :
    raw_spread defaultConfig 2000 (some (4/5)) = 48/100000 ∧
      dynamic_spread defaultConfig 2000 (some (4/5)) = 48/100000 ∧
      bid_price defaultConfig 2000 (some (4/5)) = 199904/100 ∧
      ask_price defaultConfig 2000 (some (4/5)) = 200096/100 := by
  refine ⟨?_, ?_, ?_, ?_⟩ <;>
    norm_num [bid_price, ask_price, dynamic_spread, raw_spread, fallbackAtr,
      defaultConfig]

/-- Helper: when a cycle is due (`create_timestamp <= current_timestamp`),
the feed is ready and the reference price is nonzero, `on_tick` runs a full
cycle: it cancels, places, and resets `create_timestamp` to
`current_timestamp + order_refresh_time` (line 61). -/
theorem on_tick_full_cycle (cfg : StrategyConfig) (exchange : String)
    (adjust : List OrderCandidate → List OrderCandidate)
    (t ref_price : ℚ) (atr : Option ℚ) (st : StrategyState)
    (hdue : st.create_timestamp ≤ t) (href : ref_price ≠ 0) :
    ∃ acts, on_tick cfg exchange adjust true t ref_price atr st =
      ({ create_timestamp := t + cfg.order_refresh_time },
       HostAction.cancelAll :: acts) := by
  unfold on_tick
  rw [if_pos hdue, if_pos (show (true : Bool) = true from rfl)]
  obtain ⟨l, hl⟩ : ∃ l, create_proposal cfg ref_price atr = some l := by
    simp [create_proposal, href]
  rw [hl]
  exact ⟨_, rfl⟩

/-- Helper: when no cycle is due, `on_tick` does nothing (line 53 guard). -/
theorem on_tick_not_due (cfg : StrategyConfig) (exchange : String)
    (adjust : List OrderCandidate → List OrderCandidate) (ready : Bool)
    (t ref_price : ℚ) (atr : Option ℚ) (st : StrategyState)
    (h : ¬ st.create_timestamp ≤ t) :
    on_tick cfg exchange adjust ready t ref_price atr st = (st, []) := by
  unfold on_tick
  rw [if_neg h]

/-- C8: after a full cycle at host time `t` (cycle due, feed ready, nonzero
reference price), `create_timestamp` becomes `t + order_refresh_time`,
cancellation happened during the cycle, and every later call of `on_tick`
at a host time strictly before `t + order_refresh_time` performs no
cancellation or placement and leaves the state unchanged, whatever the
feed, prices and budget checker do then. -/
theorem on_tick_refresh_cadence (cfg : StrategyConfig) (exchange : String)
    (adjust : List OrderCandidate → List OrderCandidate)
    (t ref_price : ℚ) (atr : Option ℚ) (st : StrategyState)
    (hdue : st.create_timestamp ≤ t) (href : ref_price ≠ 0) :
    (on_tick cfg exchange adjust true t ref_price atr st).1.create_timestamp
        = t + cfg.order_refresh_time ∧
      HostAction.cancelAll ∈
        (on_tick cfg exchange adjust true t ref_price atr st).2 ∧
      ∀ (exchange2 : String)
        (adjust2 : List OrderCandidate → List OrderCandidate)
        (ready2 : Bool) (t2 ref2 : ℚ) (atr2 : Option ℚ),
        t2 < t + cfg.order_refresh_time →
          on_tick cfg exchange2 adjust2 ready2 t2 ref2 atr2
              (on_tick cfg exchange adjust true t ref_price atr st).1 =
            ((on_tick cfg exchange adjust true t ref_price atr st).1, []) := by
  obtain ⟨acts, hrun⟩ :=
    on_tick_full_cycle cfg exchange adjust t ref_price atr st hdue href
  rw [hrun]
  refine ⟨rfl, List.mem_cons_self _ _, ?_⟩
  intro exchange2 adjust2 ready2 t2 ref2 atr2 ht2
  exact on_tick_not_due cfg exchange2 adjust2 ready2 t2 ref2 atr2 _
    (not_le.mpr ht2)

/-- Witness for C8: a cycle at time 100 with the script's configuration
resets the timestamp to 115, and a tick at time 110 is then a no-op. -/
theorem on_tick_refresh_cadence_witness :
    (on_tick defaultConfig "binance_paper_trade" id true 100 2000
        (some (4/5)) { create_timestamp := 0 }).1.create_timestamp
        = 100 + defaultConfig.order_refresh_time ∧
      on_tick defaultConfig "kucoin" id false 110 3000 none
          (on_tick defaultConfig "binance_paper_trade" id true 100 2000
            (some (4/5)) { create_timestamp := 0 }).1 =
        ((on_tick defaultConfig "binance_paper_trade" id true 100 2000
          (some (4/5)) { create_timestamp := 0 }).1, []) := by
  obtain ⟨h1, _, h3⟩ := on_tick_refresh_cadence defaultConfig
    "binance_paper_trade" id 100 2000 (some (4/5)) { create_timestamp := 0 }
    (by norm_num) (by norm_num)
  exact ⟨h1, h3 "kucoin" id false 110 3000 none (by norm_num [defaultConfig])⟩

/-- C9: whenever the candle feed is not ready, `on_tick` is a no-op — no
cancellation, no placement, `create_timestamp` unchanged (lines 54-55).
Consequently, if a cycle was due at the skipped tick's time `t`, then at
any later tick `t2 ≥ t` at which the feed is ready (and the reference price
is nonzero) a full cycle runs: `create_timestamp` is reset and orders are
cancelled. -/
theorem on_tick_not_ready_noop (cfg : StrategyConfig) (exchange : String)
    (adjust : List OrderCandidate → List OrderCandidate)
    (t ref_price : ℚ) (atr : Option ℚ) (st : StrategyState) :
    on_tick cfg exchange adjust false t ref_price atr st = (st, []) ∧
      (st.create_timestamp ≤ t →
        ∀ (exchange2 : String)
          (adjust2 : List OrderCandidate → List OrderCandidate)
          (t2 ref2 : ℚ) (atr2 : Option ℚ), t ≤ t2 → ref2 ≠ 0 →
          (on_tick cfg exchange2 adjust2 true t2 ref2 atr2 st).1.create_timestamp
              = t2 + cfg.order_refresh_time ∧
            HostAction.cancelAll ∈
              (on_tick cfg exchange2 adjust2 true t2 ref2 atr2 st).2) := by
  constructor
  · unfold on_tick
    by_cases h : st.create_timestamp ≤ t
    · rw [if_pos h]
      simp
    · rw [if_neg h]
  · intro hdue exchange2 adjust2 t2 ref2 atr2 ht href
    obtain ⟨acts, hrun⟩ := on_tick_full_cycle cfg exchange2 adjust2 t2 ref2
      atr2 st (le_trans hdue ht) href
    rw [hrun]
    exact ⟨rfl, List.mem_cons_self _ _⟩

/-- Witness for C9: a not-ready tick at time 100 from the initial state is
a no-op, and the ready tick at time 101 then runs a full cycle. -/
theorem on_tick_not_ready_noop_witness :
    on_tick defaultConfig "binance_paper_trade" id false 100 2000
        (some (4/5)) { create_timestamp := 0 } =
      ({ create_timestamp := 0 }, []) ∧
      (on_tick defaultConfig "binance_paper_trade" id true 101 2000
          (some (4/5)) { create_timestamp := 0 }).1.create_timestamp =
        101 + defaultConfig.order_refresh_time := by
  obtain ⟨h1, h2⟩ := on_tick_not_ready_noop defaultConfig
    "binance_paper_trade" id 100 2000 (some (4/5)) { create_timestamp := 0 }
  exact ⟨h1, (h2 (by norm_num) "binance_paper_trade" id 101 2000
    (some (4/5)) (by norm_num) (by norm_num)).1⟩

/-- C10: `place_order` submits a sell for a SELL order, a buy for a BUY
order, and for any other side silently submits nothing (the `if`/`elif` of
lines 109-112 has no `else`). -/
theorem place_order_side_dispatch (connector_name : String)
    (order : OrderCandidate) :
    (order.order_side = TradeType.SELL →
      place_order connector_name order =
        [HostAction.sell connector_name order.trading_pair order.amount
          order.order_type order.price]) ∧
    (order.order_side = TradeType.BUY →
      place_order connector_name order =
        [HostAction.buy connector_name order.trading_pair order.amount
          order.order_type order.price]) ∧
    (order.order_side ≠ TradeType.SELL → order.order_side ≠ TradeType.BUY →
      place_order connector_name order = []) := by
  refine ⟨fun h => ?_, fun h => ?_, fun h1 h2 => ?_⟩ <;>
    simp [place_order, *]

/-- Witness for C10: a RANGE-side order is silently dropped. -/
theorem place_order_side_dispatch_witness :
    place_order "binance_paper_trade"
      { trading_pair := "ETH-USDT", is_maker := true,
        order_type := OrderType.LIMIT, order_side := TradeType.RANGE,
        amount := 1/100, price := 2000 } = [] :=
  (place_order_side_dispatch "binance_paper_trade"
    { trading_pair := "ETH-USDT", is_maker := true,
      order_type := OrderType.LIMIT, order_side := TradeType.RANGE,
      amount := 1/100, price := 2000 }).2.2 (by decide) (by decide)
